import Mathlib

/-!
# Verification of the toggl-cli time-entry orchestration layer

A shallow embedding of the command-line client in `src/main.rs` together with
the command modules it dispatches to.  Only `main.rs` is present in the
repository snapshot; the command modules (`commands/*`, `picker.rs`,
`error.rs`, `models.rs`, `arguments.rs`) are modelled from the specification,
as marked on each definition.

The remote service's observable state is a two-state machine (Idle/Running)
plus the most-recent-first history of entries; every API call a command makes
is recorded in a call log so that "no remote call" and "no mutating call"
properties can be stated directly.
-/

namespace Toggl

/-- A remote time entry (spec section 3; `models.rs` is not under `src/`).
`stop = none` means the entry is currently running. -/
structure TimeEntry where
  id : Nat
  description : String
  project_id : Option Nat
  start : Nat
  stop : Option Nat
  billable : Bool
  deriving Repr, DecidableEq

/-- A remote project (spec section 3; `models.rs` is not under `src/`). -/
structure Project where
  id : Nat
  name : String
  billable : Bool
  workspace_id : Nat
  deriving Repr, DecidableEq

/-- Stored credentials: a single opaque API token (spec section 3). -/
structure Credentials where
  api_token : String
  deriving Repr, DecidableEq

/-- The two `--directory` argument errors raised in `execute_subcommand`
(`src/main.rs` lines 56-64). -/
inductive ArgumentError where
  | DirectoryNotFound (path : String)
  | NotADirectory (path : String)
  deriving Repr, DecidableEq

/-- Modelled from the spec: the error taxonomy of section 7 (`error.rs` is not
under `src/`).  `SelectionCancelled` is deliberately NOT here: the spec calls
it a benign outcome, not an error, so it lives in `CommandOutcome`. -/
inductive Error where
  | authError
  | networkError
  | notFound
  | missingArgument
  | pickerError
  | argumentError (e : ArgumentError)
  deriving Repr, DecidableEq

/-- Modelled from the spec: the formatted textual representation of an error
(the `Display` implementation in `error.rs`, which is not under `src/`). -/
def Error.render : Error → String
  | .authError => "authentication error: please run toggl auth"
  | .networkError => "network error"
  | .notFound => "not found"
  | .missingArgument => "missing argument"
  | .pickerError => "picker failed"
  | .argumentError (.DirectoryNotFound p) => "directory not found: " ++ p
  | .argumentError (.NotADirectory p) => "not a directory: " ++ p

/-- One remote API call, as named in the capability contract of spec
section 4.1.  Commands record every call they issue. -/
inductive ApiCall where
  | getRunningEntry
  | startEntry (description : String) (project_id : Option Nat) (billable : Bool)
  | stopEntry (id : Nat)
  | listTimeEntries (count : Nat)
  | listProjects
  | authenticate (token : String)
  deriving Repr, DecidableEq

/-- A call mutates remote state exactly when it is `start_entry` or
`stop_entry` (spec section 4.1: only those two are mutating). -/
def ApiCall.isMutating : ApiCall → Bool
  | .startEntry _ _ _ => true
  | .stopEntry _ => true
  | _ => false

/-- Number of `start_entry` calls in a call log. -/
def countStartEntry (calls : List ApiCall) : Nat :=
  calls.countP fun c =>
    match c with
    | .startEntry _ _ _ => true
    | _ => false

/-- The remote service's observable state: at most one running entry, the
stopped entries most-recent-first, the available projects, and a fresh-id
counter (spec sections 3 and 4.3). -/
structure RemoteState where
  running : Option TimeEntry
  history : List TimeEntry
  projects : List Project
  nextId : Nat
  deriving Repr, DecidableEq

/-- All entries, most-recent-first: the running one (if any) then the
stopped history. -/
def RemoteState.allEntries (s : RemoteState) : List TimeEntry :=
  s.running.toList ++ s.history

/-- `list_time_entries(count)`: most-recent-first, bounded to `count` items
(spec section 4.1). -/
def RemoteState.listTimeEntries (s : RemoteState) (count : Nat) : List TimeEntry :=
  s.allEntries.take count

/-- `start_entry`: creates and returns the new running entry; a previously
running entry is implicitly stopped by the service (spec section 4.1). -/
def RemoteState.startEntry (s : RemoteState) (now : Nat) (description : String)
    (project_id : Option Nat) (billable : Bool) : TimeEntry × RemoteState :=
  let stopped :=
    match s.running with
    | some e => [{ e with stop := some now }]
    | none => []
  let entry : TimeEntry := ⟨s.nextId, description, project_id, now, none, billable⟩
  (entry, ⟨some entry, stopped ++ s.history, s.projects, s.nextId + 1⟩)

/-- `stop_entry(id)`: stops the running entry with that id, failing with
`NotFound` if no entry with that id is running (spec section 4.1). -/
def RemoteState.stopEntry (s : RemoteState) (now : Nat) (id : Nat) :
    Except Error (TimeEntry × RemoteState) :=
  match s.running with
  | some e =>
    if e.id = id then
      let stopped := { e with stop := some now }
      .ok (stopped, ⟨none, stopped :: s.history, s.projects, s.nextId⟩)
    else
      .error .notFound
  | none => .error .notFound

/-- The two interchangeable picker strategies (spec section 4.2; `picker.rs`
is not under `src/`). -/
inductive PickerKind where
  | builtin
  | fzf
  deriving Repr, DecidableEq

/-- Modelled from the spec: a Picker is a strategy together with its
interactive step, which shows the labels and yields the chosen label or
`none` on user cancellation (`picker.rs` is not under `src/`). -/
structure Picker where
  kind : PickerKind
  ui : List String → Option String

/-- `picker::get_picker(fzf)` as used at `src/main.rs` line 55: selects the
external fuzzy-finder strategy when `--fzf` is set, else the built-in one.
Modelled from the spec since `picker.rs` is not under `src/`. -/
def get_picker (fzf : Bool) (ui : List String → Option String) : Picker :=
  ⟨if fzf then .fzf else .builtin, ui⟩

/-- Modelled from the spec: the Picker contract of section 4.2.  On an empty
candidate list it answers `none` immediately without invoking any interactive
UI; otherwise the UI is shown and the returned label is mapped back to the
first item with that label.  The second component records whether the
interactive UI was invoked. -/
def Picker.pick {α : Type} (p : Picker) (items : List (String × α)) :
    Option α × Bool :=
  match items with
  | [] => (none, false)
  | _ :: _ =>
    match p.ui (items.map Prod.fst) with
    | none => (none, true)
    | some label => ((items.find? fun it => it.fst == label).map Prod.snd, true)

/-- The user-facing outcome of a successful command run.  `selectionCancelled`
is the spec's benign "user aborted an interactive pick" outcome (section 7:
never presented as an error). -/
inductive CommandOutcome where
  | done (message : String)
  | selectionCancelled
  deriving Repr, DecidableEq

/-- What one orchestration command produces: its result, the remote state it
leaves behind, and the log of every API call it issued. -/
structure CommandResult where
  result : Except Error CommandOutcome
  remote : RemoteState
  calls : List ApiCall
  deriving Repr

/-- Modelled from the spec: how a time entry is formatted when printed
(display code is not under `src/`). -/
def renderEntry (e : TimeEntry) : String :=
  e.description

/-- Modelled from the spec: how a list of entries is formatted, one per line,
in the given order (display code is not under `src/`). -/
def renderEntries (es : List TimeEntry) : String :=
  String.intercalate "\n" (es.map renderEntry)

/-- The message printed by `Stop` when nothing is running (spec section 4.3:
"reports nothing running as a benign outcome, not an error"). -/
def stopNothingRunningMessage : String := "nothing running"

/-- Modelled from the spec: `RunningTimeEntryCommand::execute`
(`commands/running.rs` is not under `src/`): reads the current state and
prints Idle or Running with its fields; the state is unchanged. -/
def RunningTimeEntryCommand.execute (s : RemoteState) : CommandResult :=
  match s.running with
  | none => ⟨.ok (.done "No time entry is running"), s, [.getRunningEntry]⟩
  | some e => ⟨.ok (.done (renderEntry e)), s, [.getRunningEntry]⟩

/-- The caller origin of a Stop, as passed at `src/main.rs` line 69
(`commands/stop.rs` is not under `src/`). -/
inductive StopCommandOrigin where
  | commandLine
  deriving Repr, DecidableEq

/-- Modelled from the spec: `StopCommand::execute` (`commands/stop.rs` is not
under `src/`).  Reads the running entry; when Idle it reports "nothing
running" benignly without any mutating call, when Running it stops the
running entry by id (spec section 4.3). -/
def StopCommand.execute (s : RemoteState) (now : Nat)
    (origin : StopCommandOrigin) : CommandResult :=
  match s.running with
  | none => ⟨.ok (.done stopNothingRunningMessage), s, [.getRunningEntry]⟩
  | some e =>
    match s.stopEntry now e.id with
    | .ok (stopped, s') =>
      ⟨.ok (.done (renderEntry stopped)), s', [.getRunningEntry, .stopEntry e.id]⟩
    | .error err => ⟨.error err, s, [.getRunningEntry, .stopEntry e.id]⟩

/-- Modelled from the spec: `ListCommand::execute` (`commands/list.rs` is not
under `src/`): fetches and prints the last `number` entries,
most-recent-first; the state is unchanged (spec section 4.3). -/
def ListCommand.execute (s : RemoteState) (number : Nat) : CommandResult :=
  ⟨.ok (.done (renderEntries (s.listTimeEntries number))), s,
    [.listTimeEntries number]⟩

/-- How many recent entries the interactive Continue offers for picking: the
spec (section 4.3) says "the last N" without fixing N. -/
def continuePickCount : Nat := 10

/-- Modelled from the spec: `ContinueCommand::execute` (`commands/cont.rs` is
not under `src/`).  Non-interactively it fetches the most recent entry via
`list_time_entries(1)`; interactively it lets the user pick among the last N.
The selected source entry is re-started with the same
description/project/billable, starting at the invocation time `now`; a
cancelled pick yields the benign `selectionCancelled` outcome
(spec sections 4.3 and 7). -/
def ContinueCommand.execute (s : RemoteState) (now : Nat)
    (picker : Option Picker) : CommandResult :=
  match picker with
  | none =>
    match s.listTimeEntries 1 with
    | [] => ⟨.ok (.done "no recent entries"), s, [.listTimeEntries 1]⟩
    | e :: _ =>
      let (started, s') := s.startEntry now e.description e.project_id e.billable
      ⟨.ok (.done (renderEntry started)), s',
        [.listTimeEntries 1, .startEntry e.description e.project_id e.billable]⟩
  | some p =>
    match (p.pick ((s.listTimeEntries continuePickCount).map fun e =>
        (e.description, e))).fst with
    | none => ⟨.ok .selectionCancelled, s, [.listTimeEntries continuePickCount]⟩
    | some e =>
      let (started, s') := s.startEntry now e.description e.project_id e.billable
      ⟨.ok (.done (renderEntry started)), s',
        [.listTimeEntries continuePickCount,
          .startEntry e.description e.project_id e.billable]⟩

/-- Modelled from the spec: `StartCommand::execute` (`commands/start.rs` is
not under `src/`).  With both description and project missing: fail fast with
`MissingArgument` before any remote call when not interactive, else fetch the
candidate projects and pick one (a cancelled pick yields the benign
`selectionCancelled` outcome).  Otherwise start the entry from the arguments;
description defaults to the empty string and, for a picked project, billable
defaults to the project's flag (spec sections 4.3 and 7). -/
def StartCommand.execute (s : RemoteState) (now : Nat) (picker : Picker)
    (description : Option String) (project : Option Nat) (billable : Bool)
    (interactive : Bool) : CommandResult :=
  if description.isNone && project.isNone then
    if interactive then
      match (picker.pick (s.projects.map fun p => (p.name, p))).fst with
      | none => ⟨.ok .selectionCancelled, s, [.listProjects]⟩
      | some p =>
        let b := billable || p.billable
        let (started, s') := s.startEntry now "" (some p.id) b
        ⟨.ok (.done (renderEntry started)), s',
          [.listProjects, .startEntry "" (some p.id) b]⟩
    else
      ⟨.error .missingArgument, s, []⟩
  else
    let desc := description.getD ""
    let (started, s') := s.startEntry now desc project billable
    ⟨.ok (.done (renderEntry started)), s', [.startEntry desc project billable]⟩

/-- What the authentication command produces: its result, the credential
store it leaves behind, and the API calls it issued. -/
structure AuthResult where
  result : Except Error Unit
  store : Option Credentials
  calls : List ApiCall
  deriving Repr

/-- Modelled from the spec: `AuthenticationCommand::execute`
(`commands/auth.rs` is not under `src/`).  Validates the supplied token
against the remote service before writing it to the credential store; on
validation failure the store is left untouched (spec section 4.4).
`accepts` is the remote service's judgement of the token. -/
def AuthenticationCommand.execute (accepts : String → Bool) (token : String)
    (store : Option Credentials) : AuthResult :=
  if accepts token then
    ⟨.ok (), some ⟨token⟩, [.authenticate token]⟩
  else
    ⟨.error .authError, store, [.authenticate token]⟩

/-- The parsed subcommand (`arguments::Command`; `arguments.rs` is not under
`src/`, the constructors are those matched in `src/main.rs` lines 65-118; the
config subcommand's own fields are out of scope per the spec). -/
inductive Command where
  | Stop
  | Continue (interactive : Bool)
  | List (number : Nat)
  | Current
  | Running
  | Start (interactive : Bool) (billable : Bool) (description : Option String)
      (project : Option Nat)
  | Auth (api_token : String)
  | Config
  deriving Repr, DecidableEq

/-- The parsed command line (`arguments::CommandLineArguments`; the fields
are the ones `src/main.rs` reads: `cmd`, `proxy`, `fzf`, `directory`). -/
structure CommandLineArguments where
  cmd : Option Command
  proxy : Option String
  fzf : Bool
  directory : Option String
  deriving Repr, DecidableEq

/-- What the filesystem reports about a path: the `directory.exists()` and
`directory.is_dir()` checks of `src/main.rs` lines 57-61. -/
structure DirectoryInfo where
  pathExists : Bool
  isDir : Bool
  deriving Repr, DecidableEq

/-- The external world one invocation runs against: the remote state, the
locally stored credentials, the filesystem, the current working directory,
the invocation time, the user's interactive behavior, and which tokens the
remote service accepts. -/
structure World where
  remote : RemoteState
  storedCredentials : Option Credentials
  fs : String → DirectoryInfo
  cwd : String
  now : Nat
  ui : List String → Option String
  remoteAccepts : String → Bool

/-- Everything observable about one `execute_subcommand` run: the result, the
remote state and credential store left behind, the API call log, how many API
clients were constructed, and the final working directory. -/
structure ExecResult where
  result : Except Error CommandOutcome
  remote : RemoteState
  store : Option Credentials
  calls : List ApiCall
  clientBuilds : Nat
  cwd : String

/-- `get_api_client` (`src/main.rs` lines 124-138) followed by the command
body: reading the credential store fails when no credentials are stored
(`AuthError`: missing credentials, spec section 7), in which case no command
runs; otherwise a client is built (counted) and the command executes. -/
def withClient (w : World) (k : RemoteState → CommandResult) : ExecResult :=
  match w.storedCredentials with
  | none => ⟨.error .authError, w.remote, none, [], 0, w.cwd⟩
  | some _ =>
    let r := k w.remote
    ⟨r.result, r.remote, w.storedCredentials, r.calls, 1, w.cwd⟩

/-- The `match command` dispatch of `execute_subcommand` (`src/main.rs`
lines 65-118): `None`, `Current` and `Running` all run
`RunningTimeEntryCommand`; `Auth` builds its client directly from the
supplied token; `Config` is out of scope per the spec and modelled as a
no-op. -/
def dispatch (cmd : Option Command) (picker : Picker) (w : World) : ExecResult :=
  match cmd with
  | none => withClient w fun s => RunningTimeEntryCommand.execute s
  | some c =>
    match c with
    | .Stop => withClient w fun s => StopCommand.execute s w.now .commandLine
    | .Continue interactive =>
      withClient w fun s =>
        ContinueCommand.execute s w.now (if interactive then some picker else none)
    | .List number => withClient w fun s => ListCommand.execute s number
    | .Current => withClient w fun s => RunningTimeEntryCommand.execute s
    | .Running => withClient w fun s => RunningTimeEntryCommand.execute s
    | .Start interactive billable description project =>
      withClient w fun s =>
        StartCommand.execute s w.now picker description project billable interactive
    | .Auth api_token =>
      let a := AuthenticationCommand.execute w.remoteAccepts api_token
        w.storedCredentials
      ⟨a.result.map fun _ => .done "authenticated", w.remote, a.store, a.calls, 1,
        w.cwd⟩
    | .Config => ⟨.ok (.done ""), w.remote, w.storedCredentials, [], 0, w.cwd⟩

/-- `execute_subcommand` (`src/main.rs` lines 52-122): builds the picker,
checks `--directory` (failing with `DirectoryNotFound` or `NotADirectory`
before any subcommand runs), changes the working directory on success, then
dispatches on the subcommand. -/
def execute_subcommand (args : CommandLineArguments) (w : World) : ExecResult :=
  match args.directory with
  | some d =>
    if !(w.fs d).pathExists then
      ⟨.error (.argumentError (.DirectoryNotFound d)), w.remote,
        w.storedCredentials, [], 0, w.cwd⟩
    else if !(w.fs d).isDir then
      ⟨.error (.argumentError (.NotADirectory d)), w.remote,
        w.storedCredentials, [], 0, w.cwd⟩
    else
      dispatch args.cmd (get_picker args.fzf w.ui) { w with cwd := d }
  | none => dispatch args.cmd (get_picker args.fzf w.ui) w

/-- Everything observable about one `main` run: the process result (the exit
status) and the error text `main` itself printed, if any, plus the inner
`execute_subcommand` observables. -/
structure MainResult where
  exit : Except Error Unit
  printedError : Option String
  inner : ExecResult

/-- `main` (`src/main.rs` lines 38-50): runs `execute_subcommand`; on `Ok` it
returns `Ok`, on `Err` it prints the error's textual representation and still
returns `Ok`, so the process exits successfully either way. -/
def mainRun (args : CommandLineArguments) (w : World) : MainResult :=
  match (execute_subcommand args w).result with
  | .ok _ => ⟨.ok (), none, execute_subcommand args w⟩
  | .error e => ⟨.ok (), some e.render, execute_subcommand args w⟩

/-! ### Concrete sample data for witnesses -/

/-- A sample stopped entry. -/
def sampleEntry : TimeEntry := ⟨1, "work", some 2, 5, some 6, true⟩

/-- A sample project. -/
def sampleProject : Project := ⟨2, "proj", false, 3⟩

/-- A sample idle remote state holding one stopped entry and one project. -/
def sampleIdleState : RemoteState := ⟨none, [sampleEntry], [sampleProject], 7⟩

/-- A remote state with no entries and no projects at all. -/
def emptyRemoteState : RemoteState := ⟨none, [], [], 0⟩

/-- A picker whose user always cancels. -/
def cancellingPicker : Picker := ⟨.builtin, fun _ => none⟩

/-- A picker whose user always answers with the label "work". -/
def workPicker : Picker := ⟨.builtin, fun _ => some "work"⟩

/-- Arguments naming a `--directory` that will not exist. -/
def badDirArgs : CommandLineArguments := ⟨none, none, false, some "nope"⟩

/-- A concrete world: idle remote state, credentials stored, a filesystem on
which no path exists, a user who cancels every pick, a service accepting
every token. -/
def sampleWorld : World :=
  ⟨sampleIdleState, some ⟨"tok"⟩, fun _ => ⟨false, false⟩, "/home", 9,
    fun _ => none, fun _ => true⟩

/-! ### Claims -/

/-- C1: for every parsed invocation, `main` exits with a success code, and
whenever executing the selected subcommand returns an error, `main` prints
that error's textual representation — failures are communicated only via
printed text, never via the process exit status. -/
theorem main_always_exits_success (args : CommandLineArguments) (w : World) :
    (mainRun args w).exit = Except.ok () ∧
      ∀ e, (execute_subcommand args w).result = Except.error e →
        (mainRun args w).printedError = some (Error.render e) := by
  unfold mainRun
  cases h : (execute_subcommand args w).result with
  | ok v =>
    exact ⟨rfl, fun e he => nomatch he⟩
  | error e =>
    refine ⟨rfl, fun e' he' => ?_⟩
    injection he' with h2
    rw [h2]

/-- Witness for C1 at a concrete failing invocation. -/
theorem main_always_exits_success_witness :
    (mainRun badDirArgs sampleWorld).exit = Except.ok () ∧
      (mainRun badDirArgs sampleWorld).printedError =
        some (Error.render (.argumentError (.DirectoryNotFound "nope"))) :=
  ⟨(main_always_exits_success badDirArgs sampleWorld).1,
    (main_always_exits_success badDirArgs sampleWorld).2 _ rfl⟩

/-- C2: Stop while the remote state is Idle issues no remote mutating call,
reports "nothing running" as a benign outcome rather than an error, and the
remote state stays Idle. -/
theorem stop_when_idle_benign (s : RemoteState) (now : Nat)
    (h : s.running = none) :
    (StopCommand.execute s now .commandLine).result =
      Except.ok (.done stopNothingRunningMessage) ∧
    (StopCommand.execute s now .commandLine).remote = s ∧
    ((StopCommand.execute s now .commandLine).calls.all fun c =>
      !c.isMutating) = true := by
  unfold StopCommand.execute
  rw [h]
  exact ⟨rfl, rfl, rfl⟩

/-- Witness for C2 at a concrete idle state. -/
theorem stop_when_idle_benign_witness :
    (StopCommand.execute sampleIdleState 9 .commandLine).result =
      Except.ok (.done stopNothingRunningMessage) ∧
    (StopCommand.execute sampleIdleState 9 .commandLine).remote =
      sampleIdleState :=
  ⟨(stop_when_idle_benign sampleIdleState 9 rfl).1,
    (stop_when_idle_benign sampleIdleState 9 rfl).2.1⟩

/-- C3: non-interactive Start with the description and project both missing
fails with `MissingArgument` before any remote call: the call log is empty
and the remote state is untouched. -/
theorem start_missing_args_fails_fast (s : RemoteState) (now : Nat)
    (p : Picker) (billable : Bool) :
    (StartCommand.execute s now p none none billable false).result =
      Except.error .missingArgument ∧
    (StartCommand.execute s now p none none billable false).calls = [] ∧
    (StartCommand.execute s now p none none billable false).remote = s :=
  ⟨rfl, rfl, rfl⟩

/-- C6: `list n` against a state holding `m` entries fetches exactly
`min n m` entries — the first `n` of the most-recent-first sequence, printed
in that order — and issues no mutating call, leaving the state unchanged. -/
theorem list_fetches_min_most_recent_first (s : RemoteState) (n : Nat) :
    (ListCommand.execute s n).calls = [.listTimeEntries n] ∧
    (ListCommand.execute s n).result =
      Except.ok (.done (renderEntries (s.allEntries.take n))) ∧
    (s.allEntries.take n).length = min n s.allEntries.length ∧
    (ListCommand.execute s n).remote = s ∧
    ((ListCommand.execute s n).calls.all fun c => !c.isMutating) = true := by
  refine ⟨rfl, rfl, ?_, rfl, rfl⟩
  simp [List.length_take]

/-- C4: an interactive Start or Continue whose pick is cancelled finishes
with the benign `selectionCancelled` outcome (an `ok` result, not an error)
and issues zero `start_entry` calls, leaving the remote state untouched. -/
theorem interactive_cancel_no_mutation (s : RemoteState) (now : Nat)
    (p : Picker) (billable : Bool)
    (hs : (p.pick (s.projects.map fun pr => (pr.name, pr))).fst = none)
    (hc : (p.pick ((s.listTimeEntries continuePickCount).map fun e =>
      (e.description, e))).fst = none) :
    ((StartCommand.execute s now p none none billable true).result =
        Except.ok .selectionCancelled ∧
      countStartEntry
        (StartCommand.execute s now p none none billable true).calls = 0 ∧
      (StartCommand.execute s now p none none billable true).remote = s) ∧
    ((ContinueCommand.execute s now (some p)).result =
        Except.ok .selectionCancelled ∧
      countStartEntry (ContinueCommand.execute s now (some p)).calls = 0 ∧
      (ContinueCommand.execute s now (some p)).remote = s) := by
  constructor
  · unfold StartCommand.execute
    rw [hs]
    exact ⟨rfl, rfl, rfl⟩
  · simp only [ContinueCommand.execute]
    rw [hc]
    exact ⟨rfl, rfl, rfl⟩

/-- Witness for C4 with a cancelling user on a concrete state. -/
theorem interactive_cancel_no_mutation_witness :
    (StartCommand.execute sampleIdleState 9 cancellingPicker none none false
        true).result = Except.ok .selectionCancelled ∧
    (ContinueCommand.execute sampleIdleState 9
        (some cancellingPicker)).result = Except.ok .selectionCancelled :=
  ⟨(interactive_cancel_no_mutation sampleIdleState 9 cancellingPicker false
      rfl rfl).1.1,
    (interactive_cancel_no_mutation sampleIdleState 9 cancellingPicker false
      rfl rfl).2.1⟩

/-- C5: Auth validates the supplied token against the remote service; on
validation failure the credential store is left exactly as it was, and only
a validated token is ever persisted. -/
theorem auth_validates_before_persisting (accepts : String → Bool)
    (token : String) (store : Option Credentials) :
    (AuthenticationCommand.execute accepts token store).calls =
      [.authenticate token] ∧
    (accepts token = false →
      (AuthenticationCommand.execute accepts token store).store = store) ∧
    (accepts token = true →
      (AuthenticationCommand.execute accepts token store).store =
        some ⟨token⟩) := by
  cases h : accepts token <;> unfold AuthenticationCommand.execute <;> rw [h]
  · exact ⟨rfl, fun _ => rfl, fun hc => Bool.noConfusion hc⟩
  · exact ⟨rfl, fun hc => Bool.noConfusion hc, fun _ => rfl⟩

/-- Witness for C5: a rejected token leaves the prior credentials intact. -/
theorem auth_validates_before_persisting_witness :
    (AuthenticationCommand.execute (fun _ => false) "bad"
      (some ⟨"old"⟩)).store = some ⟨"old"⟩ :=
  (auth_validates_before_persisting (fun _ => false) "bad"
    (some ⟨"old"⟩)).2.1 rfl

/-- C7: Continue re-starts the selected source entry — the most recent one
non-interactively, the picked one interactively — with the same description,
project and billable flag, and a start time no earlier than the invocation
time. -/
theorem continue_preserves_source_fields (s : RemoteState) (now : Nat)
    (e : TimeEntry) (p : Picker) :
    (∀ rest, s.allEntries = e :: rest →
      ∃ r, (ContinueCommand.execute s now none).remote.running = some r ∧
        r.description = e.description ∧ r.project_id = e.project_id ∧
        r.billable = e.billable ∧ now ≤ r.start) ∧
    ((p.pick ((s.listTimeEntries continuePickCount).map fun x =>
        (x.description, x))).fst = some e →
      ∃ r, (ContinueCommand.execute s now (some p)).remote.running = some r ∧
        r.description = e.description ∧ r.project_id = e.project_id ∧
        r.billable = e.billable ∧ now ≤ r.start) := by
  constructor
  · intro rest h
    refine ⟨⟨s.nextId, e.description, e.project_id, now, none, e.billable⟩,
      ?_, rfl, rfl, rfl, le_refl now⟩
    unfold ContinueCommand.execute RemoteState.listTimeEntries
    rw [h]
    rfl
  · intro h
    refine ⟨⟨s.nextId, e.description, e.project_id, now, none, e.billable⟩,
      ?_, rfl, rfl, rfl, le_refl now⟩
    simp only [ContinueCommand.execute]
    rw [h]
    rfl

/-- Witness for C7 on a concrete one-entry history, both non-interactively
and with a user picking that entry by its label. -/
theorem continue_preserves_source_fields_witness :
    (∃ r, (ContinueCommand.execute sampleIdleState 9 none).remote.running =
        some r ∧
      r.description = sampleEntry.description ∧
      r.project_id = sampleEntry.project_id ∧
      r.billable = sampleEntry.billable ∧ 9 ≤ r.start) ∧
    (∃ r, (ContinueCommand.execute sampleIdleState 9
        (some workPicker)).remote.running = some r ∧
      r.description = sampleEntry.description ∧
      r.project_id = sampleEntry.project_id ∧
      r.billable = sampleEntry.billable ∧ 9 ≤ r.start) :=
  ⟨(continue_preserves_source_fields sampleIdleState 9 sampleEntry
      workPicker).1 [] rfl,
    (continue_preserves_source_fields sampleIdleState 9 sampleEntry
      workPicker).2 (by decide)⟩

/-- C8: every picker strategy answers `none` on an empty candidate list
without invoking any interactive UI, and the orchestration layer turns that
`none` into the benign `selectionCancelled` outcome rather than a failure. -/
theorem pick_empty_no_ui (α : Type) (p : Picker) (s : RemoteState) (now : Nat)
    (billable : Bool) (hp : s.projects = []) :
    p.pick ([] : List (String × α)) = (none, false) ∧
    (StartCommand.execute s now p none none billable true).result =
      Except.ok .selectionCancelled := by
  refine ⟨rfl, ?_⟩
  unfold StartCommand.execute
  rw [hp]
  rfl

/-- Witness for C8 on a state with no projects. -/
theorem pick_empty_no_ui_witness :
    workPicker.pick ([] : List (String × Nat)) = (none, false) ∧
    (StartCommand.execute emptyRemoteState 9 workPicker none none false
      true).result = Except.ok .selectionCancelled :=
  pick_empty_no_ui Nat workPicker emptyRemoteState 9 false rfl

/-- C9: a `--directory` that does not exist, or is not a directory, fails
with the corresponding `ArgumentError` before any subcommand runs — no API
client is built, no remote call is made, the remote state is untouched —
while a valid directory becomes the working directory the subcommand then
runs under. -/
theorem directory_checked_before_dispatch (args : CommandLineArguments)
    (w : World) (d : String) (hd : args.directory = some d) :
    ((w.fs d).pathExists = false →
      (execute_subcommand args w).result =
        Except.error (.argumentError (.DirectoryNotFound d)) ∧
      (execute_subcommand args w).calls = [] ∧
      (execute_subcommand args w).clientBuilds = 0 ∧
      (execute_subcommand args w).remote = w.remote) ∧
    ((w.fs d).pathExists = true → (w.fs d).isDir = false →
      (execute_subcommand args w).result =
        Except.error (.argumentError (.NotADirectory d)) ∧
      (execute_subcommand args w).calls = [] ∧
      (execute_subcommand args w).clientBuilds = 0 ∧
      (execute_subcommand args w).remote = w.remote) ∧
    ((w.fs d).pathExists = true → (w.fs d).isDir = true →
      execute_subcommand args w =
        dispatch args.cmd (get_picker args.fzf w.ui) { w with cwd := d }) := by
  simp only [execute_subcommand, hd]
  refine ⟨fun h1 => ?_, fun h1 h2 => ?_, fun h1 h2 => ?_⟩
  · rw [h1]
    exact ⟨rfl, rfl, rfl, rfl⟩
  · rw [h1, h2]
    exact ⟨rfl, rfl, rfl, rfl⟩
  · rw [h1, h2]
    rfl

/-- Witness for C9 at a concrete invocation whose directory does not
exist. -/
theorem directory_checked_before_dispatch_witness :
    (execute_subcommand badDirArgs sampleWorld).result =
      Except.error (.argumentError (.DirectoryNotFound "nope")) ∧
    (execute_subcommand badDirArgs sampleWorld).calls = [] ∧
    (execute_subcommand badDirArgs sampleWorld).clientBuilds = 0 :=
  ⟨((directory_checked_before_dispatch badDirArgs sampleWorld "nope" rfl).1
      rfl).1,
    ((directory_checked_before_dispatch badDirArgs sampleWorld "nope" rfl).1
      rfl).2.1,
    ((directory_checked_before_dispatch badDirArgs sampleWorld "nope" rfl).1
      rfl).2.2.1⟩

/-- C10: invoking with no subcommand, with `current`, or with `running`
dispatches to the identical command with the same API client construction,
so all three runs are observably equal on every world. -/
theorem current_running_default_equivalent (proxy : Option String)
    (fzf : Bool) (directory : Option String) (w : World) :
    execute_subcommand ⟨none, proxy, fzf, directory⟩ w =
      execute_subcommand ⟨some .Current, proxy, fzf, directory⟩ w ∧
    execute_subcommand ⟨some .Current, proxy, fzf, directory⟩ w =
      execute_subcommand ⟨some .Running, proxy, fzf, directory⟩ w := by
  constructor <;> cases directory <;> rfl

end Toggl
